import Mathlib

/-!
Verification development for the `vmdl` model viewer example
(`src/examples/view.rs`).

The core logic of the viewer is:
  - `model_to_mesh` — the mesh assembler (centering offset, unit scaling,
    triangle-strip index flattening);
  - `load` — derives two sibling paths from the input path and reads three
    files;
  - the frame loop — per-frame UI update of scene state (light intensities,
    shadow toggle with clear-on-disable, debug-mode radio buttons, sliders)
    followed by a render phase (shadow-map regeneration and a single
    debug-mode-selected shading pass).

Floating-point scalars of the source are idealized as rationals: every
arithmetic expression is translated with the same structure, so algebraic
identities of the source transfer directly.
-/

/-- A 3D vector, `vmdl::Vector` as used by `view.rs` (f32 components
idealized as rationals). -/
structure Vec3 where
  x : ℚ
  y : ℚ
  z : ℚ
deriving DecidableEq

/-- Component-wise vector addition (`vertex.position + offset`). -/
def Vec3.add (a b : Vec3) : Vec3 :=
  { x := a.x + b.x, y := a.y + b.y, z := a.z + b.z }

/-- Vector-by-scalar multiplication (`v * scale`). -/
def Vec3.smul (v : Vec3) (s : ℚ) : Vec3 :=
  { x := v.x * s, y := v.y * s, z := v.z * s }

/-- A model vertex: position and normal (the fields of the `vmdl` vertex type
that `model_to_mesh` reads). -/
structure Vertex where
  position : Vec3
  normal : Vec3
deriving DecidableEq

/-- The loaded model: an ordered vertex list and an ordered list of triangle
strips, each strip an ordered list of vertex indices. -/
structure Model where
  vertices : List Vertex
  strips : List (List Nat)
deriving DecidableEq

/-- Modelled from the spec: the decoding performed inside
`Model::vertex_strip_indices` of the `vmdl` library (library code not present
under `src/`). A triangle strip decodes by the standard alternating-winding
rule: triangle i (0-indexed) consists of the strip entries at positions
i, i+1, i+2, with the second and third swapped when i is odd; the triangles
are emitted flat, in order. -/
def decodeStrip (strip : List Nat) : List Nat :=
  (List.range (strip.length - 2)).flatMap fun i =>
    if i % 2 = 0 then
      [strip.getD i 0, strip.getD (i + 1) 0, strip.getD (i + 2) 0]
    else
      [strip.getD i 0, strip.getD (i + 2) 0, strip.getD (i + 1) 0]

/-- Modelled from the spec: `Model::vertex_strip_indices` yields, per strip
and in strip order, the decoded flat triangle indices of that strip. -/
def vertex_strip_indices (m : Model) : List (List Nat) :=
  m.strips.map decodeStrip

/-- The constant `UNIT_SCALE: f32 = 1.0 / (1.905 * 100.0)` — 1 hammer unit
is about 1.905 cm. -/
def UNIT_SCALE : ℚ := 1 / (1.905 * 100)

/-- The renderable mesh produced by the assembler (`CpuMesh` fields used by
`view.rs`). -/
structure CpuMesh where
  positions : List Vec3
  normals : List Vec3
  indices : List Nat
deriving DecidableEq

/-- Maximum of a list of rationals, as `Iterator::max_by(total_cmp)`:
`none` exactly when the list is empty. -/
def maxTotal : List ℚ → Option ℚ
  | [] => none
  | a :: rest => some (rest.foldl max a)

/-- The assembler `fn model_to_mesh(model: &Model) -> CpuMesh`. The source unwraps the
maximum over an empty vertex list, which aborts; that failure is modelled as
`none`. `index as u32` is modelled as reduction mod 2^32. -/
def model_to_mesh (model : Model) : Option CpuMesh :=
  match maxTotal (model.vertices.map fun v => v.position.y) with
  | none => none
  | some maxY =>
    let offset : Vec3 := { x := 0, y := -maxY / 2, z := 0 }
    some
      { positions := model.vertices.map fun v =>
          ((v.position.add offset).smul UNIT_SCALE).smul 10
        normals := model.vertices.map fun v => v.normal
        indices :=
          ((vertex_strip_indices model).map fun strip =>
            strip.map fun i => i % 2 ^ 32).flatten }

/-- The `pub enum DebugType` of `view.rs`. -/
inductive DebugType where
  | POSITION
  | NORMAL
  | COLOR
  | DEPTH
  | ORM
  | UV
  | NONE
deriving DecidableEq

/-- The shading pass invoked by the `match debug_type` of the render phase: one
constructor per branch; the depth pass carries the `max_distance` it is
configured with (`depth_material.max_distance = Some(depth_max)`). -/
inductive Pass where
  | physical
  | positionMat
  | normalMat
  | colorMat
  | depthMat (maxDistance : ℚ)
  | orm
  | uv
deriving DecidableEq

/-- The `match debug_type` dispatch of the render phase: which shading pass
is invoked for the current mode, given the current `depth_max`. -/
def dispatchPass (dt : DebugType) (depthMax : ℚ) : Pass :=
  match dt with
  | .NORMAL => .normalMat
  | .DEPTH => .depthMat depthMax
  | .ORM => .orm
  | .POSITION => .positionMat
  | .UV => .uv
  | .COLOR => .colorMat
  | .NONE => .physical

/-- A directional light as the loop mutates it: its intensity and its shadow
map, `none` when cleared; a generated map is tagged with the frame index it
was generated in. -/
structure DirLight where
  intensity : ℚ
  shadowMap : Option Nat
deriving DecidableEq

/-- The mutable state captured by the render-loop closure: `shadows_enabled`,
`directional_intensity`, `ambient.intensity`, the two directional lights,
`depth_max`, `fov`, `debug_type`, plus the fixed `CpuMesh` (the camera, orbit
control and window are external-host state not touched by the claims). -/
structure SceneState where
  shadowsEnabled : Bool
  directionalIntensity : ℚ
  ambientIntensity : ℚ
  light0 : DirLight
  light1 : DirLight
  depthMax : ℚ
  fov : ℚ
  debugType : DebugType
  mesh : CpuMesh
deriving DecidableEq

/-- The six radio buttons offered by the side panel (`ui.radio_value` lines):
None, Position, Normal, Color, Depth, ORM. There is no UV radio button. -/
inductive RadioChoice where
  | rNone
  | rPosition
  | rNormal
  | rColor
  | rDepth
  | rOrm
deriving DecidableEq

/-- The `DebugType` a radio button writes into `debug_type` when clicked. -/
def RadioChoice.toDebugType : RadioChoice → DebugType
  | .rNone => .NONE
  | .rPosition => .POSITION
  | .rNormal => .NORMAL
  | .rColor => .COLOR
  | .rDepth => .DEPTH
  | .rOrm => .ORM

/-- One frame of UI interaction: each slider optionally dragged to a
new value, the shadows checkbox optionally clicked (a click toggles), at most
one radio button selected. -/
structure UiInput where
  ambientSlider : Option ℚ
  directionalSlider : Option ℚ
  shadowsClicked : Bool
  radio : Option RadioChoice
  depthSlider : Option ℚ
  fovSlider : Option ℚ

/-- Slider clamping: `Slider::new(&mut v, lo..=hi)` keeps `v` within range. -/
def clampQ (lo hi v : ℚ) : ℚ := min hi (max lo v)

/-- Ambient and directional intensity sliders
(`Slider::new(&mut ambient.intensity, 0.0..=1.0)` and
`Slider::new(&mut directional_intensity, 0.0..=1.0)`). -/
def applySliders (inp : UiInput) (s : SceneState) : SceneState :=
  { s with
    ambientIntensity :=
      match inp.ambientSlider with
      | some v => clampQ 0 1 v
      | none => s.ambientIntensity
    directionalIntensity :=
      match inp.directionalSlider with
      | some v => clampQ 0 1 v
      | none => s.directionalIntensity }

/-- The write-through `directional[0].intensity = directional_intensity;
directional[1].intensity = directional_intensity;` — runs unconditionally
every frame inside the GUI callback. -/
def applyDirectionalIntensity (s : SceneState) : SceneState :=
  { s with
    light0 := { s.light0 with intensity := s.directionalIntensity }
    light1 := { s.light1 with intensity := s.directionalIntensity } }

/-- The shadows checkbox: `ui.checkbox(&mut shadows_enabled, ..).clicked()`
toggles the flag; when the new value is off — `if !shadows_enabled` — both
shadow maps of both lights are cleared. -/
def applyShadowToggle (clicked : Bool) (s : SceneState) : SceneState :=
  if clicked then
    if s.shadowsEnabled then
      { s with
        shadowsEnabled := false
        light0 := { s.light0 with shadowMap := none }
        light1 := { s.light1 with shadowMap := none } }
    else
      { s with shadowsEnabled := true }
  else s

/-- The six `ui.radio_value(&mut debug_type, ..)` lines: a selected radio
overwrites `debug_type` with its value. -/
def applyRadio (radio : Option RadioChoice) (s : SceneState) : SceneState :=
  { s with
    debugType :=
      match radio with
      | some r => r.toDebugType
      | none => s.debugType }

/-- Depth-max and FOV sliders (`Slider::new(&mut depth_max, 1.0..=30.0)` and
`Slider::new(&mut fov, 45.0..=90.0)`). -/
def applyViewSliders (inp : UiInput) (s : SceneState) : SceneState :=
  { s with
    depthMax :=
      match inp.depthSlider with
      | some v => clampQ 1 30 v
      | none => s.depthMax
    fov :=
      match inp.fovSlider with
      | some v => clampQ 45 90 v
      | none => s.fov }

/-- The update phase of one frame: the GUI callback mutations in source
order (intensity sliders, unconditional directional-intensity write-through,
shadows checkbox with clear-on-disable, debug radios, view sliders). -/
def updatePhase (inp : UiInput) (s : SceneState) : SceneState :=
  applyViewSliders inp
    (applyRadio inp.radio
      (applyShadowToggle inp.shadowsClicked
        (applyDirectionalIntensity (applySliders inp s))))

/-- Observable render-engine commands issued by the draw block of one frame:
shadow-map generation per light, screen clear, exactly one shading pass, and
the GUI overlay write. -/
inductive RenderCmd where
  | genShadowMap (light : Nat) (frame : Nat)
  | clearScreen
  | renderPass (p : Pass)
  | writeGui
deriving DecidableEq

/-- Whether a render command is a shading pass. -/
def RenderCmd.isRenderPass : RenderCmd → Bool
  | .renderPass _ => true
  | _ => false

/-- Shadow regeneration: when `shadows_enabled` holds, both
`directional[i].generate_shadow_map(..)` calls run; the regenerated maps are
tagged with the current frame index. -/
def generateShadowMaps (frame : Nat) (s : SceneState) : SceneState :=
  { s with
    light0 := { s.light0 with shadowMap := some frame }
    light1 := { s.light1 with shadowMap := some frame } }

/-- The render phase of one frame: conditional shadow-map regeneration, then
screen clear, the single `match debug_type` shading pass, and the GUI
overlay; returns the new state and the commands issued. -/
def renderPhase (frame : Nat) (s : SceneState) : SceneState × List RenderCmd :=
  (if s.shadowsEnabled then generateShadowMaps frame s else s,
   (if s.shadowsEnabled then
      [RenderCmd.genShadowMap 0 frame, RenderCmd.genShadowMap 1 frame]
    else []) ++
     [RenderCmd.clearScreen,
      RenderCmd.renderPass (dispatchPass s.debugType s.depthMax),
      RenderCmd.writeGui])

/-- One full tick of the render loop: update phase then render phase. -/
def frameStep (frame : Nat) (inp : UiInput) (s : SceneState) :
    SceneState × List RenderCmd :=
  renderPhase frame (updatePhase inp s)

/-- Run the loop over a list of per-frame inputs, starting at a given frame
index. -/
def runFrames : Nat → SceneState → List UiInput → SceneState
  | _, s, [] => s
  | k, s, inp :: rest => runFrames (k + 1) (frameStep k inp s).1 rest

/-- The state at loop entry: `shadows_enabled = true`,
`directional_intensity = directional[0].intensity` (both lights constructed
with intensity 1.0 and no shadow map), `ambient.intensity = 0.2`,
`depth_max = 30.0`, `fov = 60.0`, `debug_type = DebugType::NONE`, and the
mesh assembled once before the loop. -/
def initState (mesh : CpuMesh) : SceneState :=
  { shadowsEnabled := true
    directionalIntensity := 1
    ambientIntensity := 1 / 5
    light0 := { intensity := 1, shadowMap := none }
    light1 := { intensity := 1, shadowMap := none }
    depthMax := 30
    fov := 60
    debugType := .NONE
    mesh := mesh }

/-- A filesystem path split as stem plus extension; `with_extension` replaces
everything after the last dot of the file name. -/
structure FsPath where
  stem : String
  ext : String
deriving DecidableEq

/-- Rust `Path::with_extension`: replace the extension. -/
def withExtension (p : FsPath) (e : String) : FsPath :=
  { p with ext := e }

/-- Rust `Path::display().to_string()`, used as the window title. -/
def pathDisplay (p : FsPath) : String :=
  p.stem ++ "." ++ p.ext

/-- The filesystem visible to `fs::read`: contents per path, `none` when the
file is missing or unreadable. -/
def FileSystem : Type := FsPath → Option (List Nat)

/-- The error taxonomy surfaced by `load`: an I/O failure naming the path, or
a parse failure from one of the three readers. -/
inductive LoadError where
  | io (p : FsPath)
  | parse
deriving DecidableEq

/-- Reading one file, `fs::read(path)?`: the bytes, or an I/O error naming
the path. -/
def readFile (fs : FileSystem) (p : FsPath) : Except LoadError (List Nat) :=
  match fs p with
  | some d => Except.ok d
  | none => Except.error (LoadError.io p)

/-- The loader `fn load(path: &Path) -> Result<Model, vmdl::ModelError>`:
read the input
path, parse it, read the sibling path with extension `dx90.vtx`, parse it,
read the sibling path with extension `vvd`, parse it, combine. The three
parsers (`Mdl::read`, `Vtx::read`, `Vvd::read`) and `Model::from_parts` are
`vmdl` library code not present under `src/`, so they are abstract
parameters here. -/
def load {Mdl Vtx Vvd M : Type}
    (mdlRead : List Nat → Except LoadError Mdl)
    (vtxRead : List Nat → Except LoadError Vtx)
    (vvdRead : List Nat → Except LoadError Vvd)
    (fromParts : Mdl → Vtx → Vvd → M)
    (fs : FileSystem) (path : FsPath) : Except LoadError M := do
  let data ← readFile fs path
  let mdl ← mdlRead data
  let data ← readFile fs (withExtension path "dx90.vtx")
  let vtx ← vtxRead data
  let data ← readFile fs (withExtension path "vvd")
  let vvd ← vvdRead data
  return fromParts mdl vtx vvd

/-- The window `main` creates after loading succeeds: title from the input
path, min size 512 by 512, max size 1920 by 1080. -/
structure ViewerWindow where
  title : String
  minSize : Nat × Nat
  maxSize : Option (Nat × Nat)
deriving DecidableEq

/-- The startup sequence of `main` up to window creation: `load(&path)` is
unwrapped first; only on success is the window constructed. A window value
therefore exists only when all three files were read and parsed. -/
def mainStartup {Mdl Vtx Vvd M : Type}
    (mdlRead : List Nat → Except LoadError Mdl)
    (vtxRead : List Nat → Except LoadError Vtx)
    (vvdRead : List Nat → Except LoadError Vvd)
    (fromParts : Mdl → Vtx → Vvd → M)
    (fs : FileSystem) (path : FsPath) :
    Except LoadError (M × ViewerWindow) :=
  match load mdlRead vtxRead vvdRead fromParts fs path with
  | Except.error e => Except.error e
  | Except.ok m =>
      Except.ok
        (m,
         { title := pathDisplay path
           minSize := (512, 512)
           maxSize := some (1920, 1080) })

/-- A model with a single vertex at y = 10, the worked example of the spec
for the
centering computation. -/
def singleV10 : Model :=
  { vertices :=
      [{ position := { x := 0, y := 10, z := 0 }
         normal := { x := 0, y := 0, z := 1 } }]
    strips := [] }

/-- The mesh the assembler produces from `singleV10`. -/
def meshV10 : CpuMesh :=
  { positions := [{ x := 0, y := 100 / 381, z := 0 }]
    normals := [{ x := 0, y := 0, z := 1 }]
    indices := [] }

/-- A vertex at the origin with unit-z normal, for concrete test models. -/
def vOrigin : Vertex :=
  { position := { x := 0, y := 0, z := 0 }
    normal := { x := 0, y := 0, z := 1 } }

/-- A four-vertex model with one strip `[0, 1, 2, 3]`. -/
def mFour : Model :=
  { vertices := [vOrigin, vOrigin, vOrigin, vOrigin]
    strips := [[0, 1, 2, 3]] }

/-- The mesh the assembler produces from `mFour`. -/
def meshFour : CpuMesh :=
  { positions :=
      [{ x := 0, y := 0, z := 0 }, { x := 0, y := 0, z := 0 },
       { x := 0, y := 0, z := 0 }, { x := 0, y := 0, z := 0 }]
    normals :=
      [{ x := 0, y := 0, z := 1 }, { x := 0, y := 0, z := 1 },
       { x := 0, y := 0, z := 1 }, { x := 0, y := 0, z := 1 }]
    indices := [0, 1, 2, 1, 3, 2] }

/-- A frame input with no interaction at all. -/
def inpIdle : UiInput :=
  { ambientSlider := none
    directionalSlider := none
    shadowsClicked := false
    radio := none
    depthSlider := none
    fovSlider := none }

/-- A frame input whose only interaction is a click on the shadows
checkbox. -/
def inpClick : UiInput :=
  { inpIdle with shadowsClicked := true }

/-- A parser stand-in that accepts any input. -/
def okUnit : List Nat → Except LoadError Unit := fun _ => Except.ok ()

/-- A one-file filesystem holding only `model.mdl`. -/
def fsOne : FileSystem :=
  fun p => if p = { stem := "model", ext := "mdl" } then some [] else none

/-- The input path `model.mdl`. -/
def pMdl : FsPath := { stem := "model", ext := "mdl" }

/-! Helper lemmas. -/

lemma length_flatMap_range_const (f : Nat → List Nat) (c : Nat)
    (h : ∀ i, (f i).length = c) (k : Nat) :
    ((List.range k).flatMap f).length = c * k := by
  induction k with
  | zero => simp
  | succ n ih =>
      rw [List.range_succ, List.flatMap_append, List.length_append, ih]
      simp [h]
      ring

lemma decodeStrip_length (s : List Nat) :
    (decodeStrip s).length = 3 * (s.length - 2) := by
  unfold decodeStrip
  refine length_flatMap_range_const _ 3 ?_ _
  intro i
  by_cases h : i % 2 = 0 <;> simp [h]

lemma model_to_mesh_some {m : Model} {mesh : CpuMesh}
    (h : model_to_mesh m = some mesh) :
    ∃ y, maxTotal (m.vertices.map fun v => v.position.y) = some y ∧
      mesh.positions = (m.vertices.map fun v =>
        ((v.position.add { x := 0, y := -y / 2, z := 0 }).smul
          UNIT_SCALE).smul 10) ∧
      mesh.normals = m.vertices.map (fun v => v.normal) ∧
      mesh.indices =
        ((m.strips.map decodeStrip).map fun l =>
          l.map fun i => i % 2 ^ 32).flatten := by
  unfold model_to_mesh at h
  cases hm : maxTotal (m.vertices.map fun v => v.position.y) with
  | none => rw [hm] at h; exact absurd h (by simp)
  | some y =>
      rw [hm] at h
      simp only [Option.some.injEq] at h
      subst h
      exact ⟨y, rfl, rfl, rfl, rfl⟩

lemma frameStep_shadow_inv (k : Nat) (inp : UiInput) (s : SceneState)
    (h : s.shadowsEnabled = false →
      s.light0.shadowMap = none ∧ s.light1.shadowMap = none) :
    (frameStep k inp s).1.shadowsEnabled = false →
      (frameStep k inp s).1.light0.shadowMap = none ∧
      (frameStep k inp s).1.light1.shadowMap = none := by
  rcases s with ⟨en, di, ai, ⟨i0, m0⟩, ⟨i1, m1⟩, dm, fv, dt, me⟩
  rcases inp with ⟨a, d, c, r, dp, f⟩
  cases c <;> cases en <;>
    simp_all [frameStep, updatePhase, renderPhase, applySliders,
      applyDirectionalIntensity, applyShadowToggle, applyRadio,
      applyViewSliders, generateShadowMaps]

lemma frameStep_regen (k : Nat) (inp : UiInput) (s : SceneState)
    (h : (updatePhase inp s).shadowsEnabled = true) :
    (frameStep k inp s).1.light0.shadowMap = some k ∧
    (frameStep k inp s).1.light1.shadowMap = some k := by
  simp [frameStep, renderPhase, h, generateShadowMaps]

lemma frameStep_toggle_off (k : Nat) (inp : UiInput) (s : SceneState)
    (hc : inp.shadowsClicked = true) (he : s.shadowsEnabled = true) :
    (frameStep k inp s).1.shadowsEnabled = false ∧
    (frameStep k inp s).1.light0.shadowMap = none ∧
    (frameStep k inp s).1.light1.shadowMap = none := by
  rcases s with ⟨en, di, ai, ⟨i0, m0⟩, ⟨i1, m1⟩, dm, fv, dt, me⟩
  rcases inp with ⟨a, d, c, r, dp, f⟩
  cases c <;> cases en <;>
    simp_all [frameStep, updatePhase, renderPhase, applySliders,
      applyDirectionalIntensity, applyShadowToggle, applyRadio,
      applyViewSliders, generateShadowMaps]

lemma frameStep_mesh (k : Nat) (inp : UiInput) (s : SceneState) :
    (frameStep k inp s).1.mesh = s.mesh := by
  rcases s with ⟨en, di, ai, ⟨i0, m0⟩, ⟨i1, m1⟩, dm, fv, dt, me⟩
  rcases inp with ⟨a, d, c, r, dp, f⟩
  cases c <;> cases en <;>
    simp [frameStep, updatePhase, renderPhase, applySliders,
      applyDirectionalIntensity, applyShadowToggle, applyRadio,
      applyViewSliders, generateShadowMaps]

lemma frameStep_not_uv (k : Nat) (inp : UiInput) (s : SceneState)
    (h : s.debugType ≠ DebugType.UV) :
    (frameStep k inp s).1.debugType ≠ DebugType.UV := by
  rcases s with ⟨en, di, ai, ⟨i0, m0⟩, ⟨i1, m1⟩, dm, fv, dt, me⟩
  rcases inp with ⟨a, d, c, r, dp, f⟩
  cases c <;> cases en <;> rcases r with _ | r <;> (try cases r) <;>
    simp_all [frameStep, updatePhase, renderPhase, applySliders,
      applyDirectionalIntensity, applyShadowToggle, applyRadio,
      applyViewSliders, generateShadowMaps, RadioChoice.toDebugType]

lemma updatePhase_intensity_eq (inp : UiInput) (s : SceneState) :
    (updatePhase inp s).light0.intensity =
      (updatePhase inp s).light1.intensity := by
  rcases s with ⟨en, di, ai, ⟨i0, m0⟩, ⟨i1, m1⟩, dm, fv, dt, me⟩
  rcases inp with ⟨a, d, c, r, dp, f⟩
  cases c <;> cases en <;>
    simp [updatePhase, applySliders, applyDirectionalIntensity,
      applyShadowToggle, applyRadio, applyViewSliders]

lemma renderPhase_intensity (k : Nat) (s : SceneState) :
    (renderPhase k s).1.light0.intensity = s.light0.intensity ∧
    (renderPhase k s).1.light1.intensity = s.light1.intensity := by
  by_cases h : s.shadowsEnabled <;>
    simp [renderPhase, h, generateShadowMaps]

lemma frameStep_intensity_eq (k : Nat) (inp : UiInput) (s : SceneState) :
    (frameStep k inp s).1.light0.intensity =
      (frameStep k inp s).1.light1.intensity := by
  have h := renderPhase_intensity k (updatePhase inp s)
  calc (frameStep k inp s).1.light0.intensity
      = (updatePhase inp s).light0.intensity := h.1
    _ = (updatePhase inp s).light1.intensity := updatePhase_intensity_eq inp s
    _ = (frameStep k inp s).1.light1.intensity := h.2.symm

lemma runFrames_inv (P : SceneState → Prop)
    (hstep : ∀ (k : Nat) (inp : UiInput) (s : SceneState),
      P s → P (frameStep k inp s).1) :
    ∀ (inputs : List UiInput) (k : Nat) (s : SceneState),
      P s → P (runFrames k s inputs) := by
  intro inputs
  induction inputs with
  | nil => intro k s h; exact h
  | cons inp rest ih => intro k s h; exact ih (k + 1) _ (hstep k inp s h)

lemma dispatchPass_uv_iff (dt : DebugType) (d : ℚ) :
    dispatchPass dt d = Pass.uv ↔ dt = DebugType.UV := by
  cases dt <;> simp [dispatchPass]

lemma renderPass_mem_renderPhase (k : Nat) (s : SceneState) (p : Pass) :
    RenderCmd.renderPass p ∈ (renderPhase k s).2 ↔
      p = dispatchPass s.debugType s.depthMax := by
  by_cases h : s.shadowsEnabled <;> simp [renderPhase, h]

/-! Claim theorems. -/

/-- C1: for every non-empty model, each triangle strip of length n
contributes exactly n-2 triangles (3(n-2) indices) to the flat index
list, decoded by the alternating-winding rule and concatenated in strip
order; the strip [0,1,2,3] decodes to exactly (0,1,2),(1,3,2); and the total
index list length is divisible by 3. -/
theorem c1_strip_decoding :
    (∀ (m : Model) (mesh : CpuMesh), model_to_mesh m = some mesh →
      mesh.indices.length =
        (m.strips.map fun s => 3 * (s.length - 2)).sum ∧
      3 ∣ mesh.indices.length ∧
      mesh.indices =
        ((m.strips.map decodeStrip).map fun l =>
          l.map fun i => i % 2 ^ 32).flatten) ∧
    decodeStrip [0, 1, 2, 3] = [0, 1, 2, 1, 3, 2] := by
  constructor
  · intro m mesh h
    obtain ⟨y, hy, hpos, hnorm, hind⟩ := model_to_mesh_some h
    have hlen : mesh.indices.length =
        (m.strips.map fun s => 3 * (s.length - 2)).sum := by
      rw [hind]
      simp only [List.length_flatten, List.map_map, Function.comp_def,
        List.length_map, decodeStrip_length]
    refine ⟨hlen, ?_, hind⟩
    rw [hlen]
    refine List.dvd_sum ?_
    intro x hx
    rw [List.mem_map] at hx
    obtain ⟨s, _, rfl⟩ := hx
    exact Dvd.intro _ rfl
  · decide

/-- C1 witness: the four-vertex one-strip model evaluated concretely. -/
theorem c1_strip_decoding_witness :
    meshFour.indices.length =
      (mFour.strips.map fun s => 3 * (s.length - 2)).sum ∧
    3 ∣ meshFour.indices.length := by
  have hd : decodeStrip [0, 1, 2, 3] = [0, 1, 2, 1, 3, 2] := by decide
  have h : model_to_mesh mFour = some meshFour := by
    norm_num [model_to_mesh, maxTotal, mFour, meshFour, vOrigin,
      vertex_strip_indices, Vec3.add, Vec3.smul, UNIT_SCALE, hd]
  exact ⟨(c1_strip_decoding.1 mFour meshFour h).1,
    (c1_strip_decoding.1 mFour meshFour h).2.1⟩

/-- C2: the assembler outputs, per vertex independently,
(position + (0, -maxY/2, 0)) * UNIT_SCALE * 10, where maxY is the maximum
vertex Y; for a single vertex at y = 10 the assembled Y equals
5 * UNIT_SCALE * 10. -/
theorem c2_vertex_transform :
    (∀ (m : Model) (mesh : CpuMesh) (y : ℚ),
      model_to_mesh m = some mesh →
      maxTotal (m.vertices.map fun v => v.position.y) = some y →
      mesh.positions = m.vertices.map fun v =>
        ((v.position.add { x := 0, y := -y / 2, z := 0 }).smul
          UNIT_SCALE).smul 10) ∧
    (model_to_mesh singleV10).map (fun mesh =>
        mesh.positions.map fun p => p.y) =
      some [5 * UNIT_SCALE * 10] := by
  constructor
  · intro m mesh y hm hy
    obtain ⟨y2, hy2, hpos, _, _⟩ := model_to_mesh_some hm
    rw [hy] at hy2
    simp only [Option.some.injEq] at hy2
    rw [← hy2] at hpos
    exact hpos
  · norm_num [model_to_mesh, maxTotal, singleV10, vertex_strip_indices,
      decodeStrip, Vec3.add, Vec3.smul, UNIT_SCALE]

/-- C2 witness: the general per-vertex formula applied to the single-vertex
model at y = 10. -/
theorem c2_vertex_transform_witness :
    meshV10.positions = singleV10.vertices.map fun v =>
      ((v.position.add { x := 0, y := -(10 : ℚ) / 2, z := 0 }).smul
        UNIT_SCALE).smul 10 := by
  have h1 : model_to_mesh singleV10 = some meshV10 := by
    norm_num [model_to_mesh, maxTotal, singleV10, meshV10,
      vertex_strip_indices, decodeStrip, Vec3.add, Vec3.smul, UNIT_SCALE]
  have h2 : maxTotal (singleV10.vertices.map fun v => v.position.y) =
      some 10 := by norm_num [maxTotal, singleV10]
  exact c2_vertex_transform.1 singleV10 meshV10 10 h1 h2

/-- C3: the assembled mesh has as many positions and normals as the model
has vertices, and the normals are the vertex normals copied unchanged. -/
theorem c3_no_duplicate_no_drop :
    ∀ (m : Model) (mesh : CpuMesh), model_to_mesh m = some mesh →
      mesh.positions.length = m.vertices.length ∧
      mesh.normals.length = m.vertices.length ∧
      mesh.normals = m.vertices.map fun v => v.normal := by
  intro m mesh h
  obtain ⟨y, hy, hpos, hnorm, hind⟩ := model_to_mesh_some h
  exact ⟨by rw [hpos, List.length_map], by rw [hnorm, List.length_map], hnorm⟩

/-- C3 witness: evaluated on the single-vertex model. -/
theorem c3_no_duplicate_no_drop_witness :
    meshV10.positions.length = singleV10.vertices.length ∧
    meshV10.normals.length = singleV10.vertices.length ∧
    meshV10.normals = singleV10.vertices.map fun v => v.normal := by
  have h : model_to_mesh singleV10 = some meshV10 := by
    norm_num [model_to_mesh, maxTotal, singleV10, meshV10,
      vertex_strip_indices, decodeStrip, Vec3.add, Vec3.smul, UNIT_SCALE]
  exact c3_no_duplicate_no_drop singleV10 meshV10 h

/-- C4: the mesh assembler fails exactly on a model with zero vertices (the
maximum-Y computation has no value there); it succeeds on every model with
at least one vertex. -/
theorem c4_empty_model_fails :
    ∀ m : Model, model_to_mesh m = none ↔ m.vertices = [] := by
  intro m
  rcases m with ⟨verts, strips⟩
  cases verts with
  | nil => simp [model_to_mesh, maxTotal]
  | cons a rest => simp [model_to_mesh, maxTotal]

/-- C4 witness: the empty model fails, the single-vertex model succeeds. -/
theorem c4_empty_model_fails_witness :
    model_to_mesh { vertices := [], strips := [] } = none ∧
    model_to_mesh singleV10 ≠ none := by
  constructor
  · exact (c4_empty_model_fails { vertices := [], strips := [] }).mpr rfl
  · intro h
    exact absurd ((c4_empty_model_fails singleV10).mp h) (by decide)

/-- C5: in every reachable frame-loop state, shadows disabled implies both
shadow maps are cleared; the frame whose toggle turns shadows off clears
both maps; and every frame whose update phase leaves shadows enabled
regenerates both maps unconditionally (they carry the current frame index),
so re-enabling never renders with a stale map. -/
theorem c5_shadow_clear_invariant :
    (∀ (mesh : CpuMesh) (inputs : List UiInput),
      (runFrames 0 (initState mesh) inputs).shadowsEnabled = false →
      (runFrames 0 (initState mesh) inputs).light0.shadowMap = none ∧
      (runFrames 0 (initState mesh) inputs).light1.shadowMap = none) ∧
    (∀ (k : Nat) (inp : UiInput) (s : SceneState),
      (updatePhase inp s).shadowsEnabled = true →
      (frameStep k inp s).1.light0.shadowMap = some k ∧
      (frameStep k inp s).1.light1.shadowMap = some k) ∧
    (∀ (k : Nat) (inp : UiInput) (s : SceneState),
      inp.shadowsClicked = true → s.shadowsEnabled = true →
      (frameStep k inp s).1.shadowsEnabled = false ∧
      (frameStep k inp s).1.light0.shadowMap = none ∧
      (frameStep k inp s).1.light1.shadowMap = none) := by
  refine ⟨?_, frameStep_regen, frameStep_toggle_off⟩
  intro mesh inputs
  exact runFrames_inv
    (fun s => s.shadowsEnabled = false →
      s.light0.shadowMap = none ∧ s.light1.shadowMap = none)
    frameStep_shadow_inv inputs 0 (initState mesh) (by simp [initState])

/-- C5 witness: concrete frames — a toggle-off click clears both maps, and
an idle frame with shadows enabled regenerates both maps at frame 0. -/
theorem c5_shadow_clear_invariant_witness :
    ((runFrames 0 (initState meshFour) [inpClick]).light0.shadowMap = none ∧
      (runFrames 0 (initState meshFour) [inpClick]).light1.shadowMap = none) ∧
    ((frameStep 0 inpIdle (initState meshFour)).1.light0.shadowMap =
        some 0 ∧
      (frameStep 0 inpIdle (initState meshFour)).1.light1.shadowMap =
        some 0) ∧
    (frameStep 0 inpClick (initState meshFour)).1.shadowsEnabled = false := by
  refine ⟨?_, ?_, ?_⟩
  · exact c5_shadow_clear_invariant.1 meshFour [inpClick] (by decide)
  · exact c5_shadow_clear_invariant.2.1 0 inpIdle (initState meshFour)
      (by decide)
  · exact (c5_shadow_clear_invariant.2.2 0 inpClick (initState meshFour)
      rfl rfl).1

/-- C6: the render phase issues exactly one shading pass per frame, selected
deterministically by the active mode: None to the physically-based pass,
Position, Normal, Color, ORM, UV to their debug materials, and Depth to the
depth pass parameterized by the current depth-max value. -/
theorem c6_single_pass_dispatch :
    (∀ (k : Nat) (s : SceneState),
      (renderPhase k s).2.filter RenderCmd.isRenderPass =
        [RenderCmd.renderPass (dispatchPass s.debugType s.depthMax)]) ∧
    (∀ d : ℚ, dispatchPass DebugType.NONE d = Pass.physical) ∧
    (∀ d : ℚ, dispatchPass DebugType.POSITION d = Pass.positionMat) ∧
    (∀ d : ℚ, dispatchPass DebugType.NORMAL d = Pass.normalMat) ∧
    (∀ d : ℚ, dispatchPass DebugType.COLOR d = Pass.colorMat) ∧
    (∀ d : ℚ, dispatchPass DebugType.DEPTH d = Pass.depthMat d) ∧
    (∀ d : ℚ, dispatchPass DebugType.ORM d = Pass.orm) ∧
    (∀ d : ℚ, dispatchPass DebugType.UV d = Pass.uv) := by
  refine ⟨?_, fun _ => rfl, fun _ => rfl, fun _ => rfl, fun _ => rfl,
    fun _ => rfl, fun _ => rfl, fun _ => rfl⟩
  intro k s
  by_cases h : s.shadowsEnabled <;>
    simp [renderPhase, h, RenderCmd.isRenderPass, List.filter]

/-- C6 witness: frame 0 of the initial state filters down to exactly the
physically-based pass. -/
theorem c6_single_pass_dispatch_witness :
    (renderPhase 0 (initState meshFour)).2.filter RenderCmd.isRenderPass =
      [RenderCmd.renderPass
        (dispatchPass (initState meshFour).debugType
          (initState meshFour).depthMax)] :=
  c6_single_pass_dispatch.1 0 (initState meshFour)

/-- C7: no sequence of frames — in particular no sequence of debug-mode
switches — mutates the positions, normals, or indices of the mesh. -/
theorem c7_mesh_immutable :
    ∀ (k : Nat) (s : SceneState) (inputs : List UiInput),
      (runFrames k s inputs).mesh.positions = s.mesh.positions ∧
      (runFrames k s inputs).mesh.normals = s.mesh.normals ∧
      (runFrames k s inputs).mesh.indices = s.mesh.indices := by
  intro k s inputs
  have h : (runFrames k s inputs).mesh = s.mesh := by
    exact runFrames_inv (fun t => t.mesh = s.mesh)
      (fun k2 inp t ht => (frameStep_mesh k2 inp t).trans ht)
      inputs k s rfl
  exact ⟨by rw [h], by rw [h], by rw [h]⟩

/-- C7 witness: a concrete two-frame session leaves the mesh fields
unchanged. -/
theorem c7_mesh_immutable_witness :
    (runFrames 0 (initState meshFour) [inpIdle, inpClick]).mesh.positions =
      (initState meshFour).mesh.positions :=
  (c7_mesh_immutable 0 (initState meshFour) [inpIdle, inpClick]).1

/-- C9: the active debug mode is never UV in any reachable session state:
the mode starts at NONE, each of the six radio buttons maps to a non-UV
mode, every reachable state has a non-UV mode, and consequently no frame ever
issues the UV shading pass. -/
theorem c9_uv_unreachable :
    (∀ mesh : CpuMesh, (initState mesh).debugType = DebugType.NONE) ∧
    (∀ r : RadioChoice, r.toDebugType ≠ DebugType.UV) ∧
    (∀ (mesh : CpuMesh) (inputs : List UiInput),
      (runFrames 0 (initState mesh) inputs).debugType ≠ DebugType.UV) ∧
    (∀ (mesh : CpuMesh) (inputs : List UiInput) (k : Nat) (inp : UiInput),
      RenderCmd.renderPass Pass.uv ∉
        (frameStep k inp (runFrames 0 (initState mesh) inputs)).2) := by
  have hreach : ∀ (mesh : CpuMesh) (inputs : List UiInput),
      (runFrames 0 (initState mesh) inputs).debugType ≠ DebugType.UV := by
    intro mesh inputs
    exact runFrames_inv (fun s => s.debugType ≠ DebugType.UV)
      frameStep_not_uv inputs 0 (initState mesh) (by simp [initState])
  refine ⟨fun _ => rfl, by intro r; cases r <;> simp [RadioChoice.toDebugType],
    hreach, ?_⟩
  intro mesh inputs k inp hmem
  have hup : (updatePhase inp
      (runFrames 0 (initState mesh) inputs)).debugType ≠ DebugType.UV :=
    fun hdt => frameStep_not_uv k inp (runFrames 0 (initState mesh) inputs)
      (hreach mesh inputs)
      (by simp [frameStep, renderPhase]
          by_cases h : (updatePhase inp
              (runFrames 0 (initState mesh) inputs)).shadowsEnabled <;>
            simp [h, generateShadowMaps, hdt])
  rw [frameStep] at hmem
  rw [renderPass_mem_renderPhase] at hmem
  exact hup ((dispatchPass_uv_iff _ _).mp hmem.symm)

/-- C9 witness: a concrete one-frame session has a non-UV mode. -/
theorem c9_uv_unreachable_witness :
    (runFrames 0 (initState meshFour) [inpIdle]).debugType ≠
      DebugType.UV :=
  c9_uv_unreachable.2.2.1 meshFour [inpIdle]

/-- C10: after every update phase the two directional lights carry the same
intensity (one slider value is written to both every frame), so no reachable
session state configures them differently. -/
theorem c10_equal_intensities :
    (∀ (inp : UiInput) (s : SceneState),
      (updatePhase inp s).light0.intensity =
        (updatePhase inp s).light1.intensity) ∧
    (∀ (mesh : CpuMesh) (inputs : List UiInput),
      (runFrames 0 (initState mesh) inputs).light0.intensity =
        (runFrames 0 (initState mesh) inputs).light1.intensity) := by
  refine ⟨updatePhase_intensity_eq, ?_⟩
  intro mesh inputs
  exact runFrames_inv
    (fun s => s.light0.intensity = s.light1.intensity)
    (fun k inp s _ => frameStep_intensity_eq k inp s)
    inputs 0 (initState mesh) rfl

/-- C10 witness: a concrete frame with only the directional slider dragged
leaves both lights at the same intensity. -/
theorem c10_equal_intensities_witness :
    (updatePhase { inpIdle with directionalSlider := some (1 / 2) }
        (initState meshFour)).light0.intensity =
      (updatePhase { inpIdle with directionalSlider := some (1 / 2) }
        (initState meshFour)).light1.intensity :=
  c10_equal_intensities.1 { inpIdle with directionalSlider := some (1 / 2) }
    (initState meshFour)

@[simp] lemma exceptBindOk {α β ε : Type} (a : α) (f : α → Except ε β) :
    (Except.ok a >>= f) = f a := rfl

@[simp] lemma exceptBindErr {α β ε : Type} (e : ε) (f : α → Except ε β) :
    ((Except.error e : Except ε α) >>= f) = Except.error e := rfl

@[simp] lemma exceptMapOk {α β ε : Type} (f : α → β) (a : α) :
    (f <$> (Except.ok a : Except ε α)) = Except.ok (f a) := rfl

@[simp] lemma exceptMapErr {α β ε : Type} (f : α → β) (e : ε) :
    (f <$> (Except.error e : Except ε α)) = Except.error e := rfl

/-- C8: loading takes one path, derives the two sibling paths by replacing
the extension with `dx90.vtx` and `vvd`, and reads the three files in that
order; whichever of the three is missing, loading fails with an I/O error
naming it, and startup produces no window; when all three are present and
parse, loading succeeds. -/
theorem c8_load_three_files :
    ∀ (Mdl Vtx Vvd M : Type)
      (mdlRead : List Nat → Except LoadError Mdl)
      (vtxRead : List Nat → Except LoadError Vtx)
      (vvdRead : List Nat → Except LoadError Vvd)
      (fromParts : Mdl → Vtx → Vvd → M)
      (fs : FileSystem) (path : FsPath),
      (fs path = none →
        load mdlRead vtxRead vvdRead fromParts fs path =
          Except.error (LoadError.io path) ∧
        mainStartup mdlRead vtxRead vvdRead fromParts fs path =
          Except.error (LoadError.io path)) ∧
      (∀ (d1 : List Nat) (mdl : Mdl),
        fs path = some d1 → mdlRead d1 = Except.ok mdl →
        fs (withExtension path "dx90.vtx") = none →
        load mdlRead vtxRead vvdRead fromParts fs path =
          Except.error (LoadError.io (withExtension path "dx90.vtx")) ∧
        mainStartup mdlRead vtxRead vvdRead fromParts fs path =
          Except.error (LoadError.io (withExtension path "dx90.vtx"))) ∧
      (∀ (d1 : List Nat) (mdl : Mdl) (d2 : List Nat) (vtx : Vtx),
        fs path = some d1 → mdlRead d1 = Except.ok mdl →
        fs (withExtension path "dx90.vtx") = some d2 →
        vtxRead d2 = Except.ok vtx →
        fs (withExtension path "vvd") = none →
        load mdlRead vtxRead vvdRead fromParts fs path =
          Except.error (LoadError.io (withExtension path "vvd")) ∧
        mainStartup mdlRead vtxRead vvdRead fromParts fs path =
          Except.error (LoadError.io (withExtension path "vvd"))) ∧
      (∀ (d1 : List Nat) (mdl : Mdl) (d2 : List Nat) (vtx : Vtx)
          (d3 : List Nat) (vvd : Vvd),
        fs path = some d1 → mdlRead d1 = Except.ok mdl →
        fs (withExtension path "dx90.vtx") = some d2 →
        vtxRead d2 = Except.ok vtx →
        fs (withExtension path "vvd") = some d3 →
        vvdRead d3 = Except.ok vvd →
        load mdlRead vtxRead vvdRead fromParts fs path =
          Except.ok (fromParts mdl vtx vvd)) := by
  intro Mdl Vtx Vvd M mdlRead vtxRead vvdRead fromParts fs path
  refine ⟨?_, ?_, ?_, ?_⟩
  · intro h1
    have hl : load mdlRead vtxRead vvdRead fromParts fs path =
        Except.error (LoadError.io path) := by
      simp [load, readFile, h1]
    exact ⟨hl, by simp [mainStartup, hl]⟩
  · intro d1 mdl h1 h2 h3
    have hl : load mdlRead vtxRead vvdRead fromParts fs path =
        Except.error (LoadError.io (withExtension path "dx90.vtx")) := by
      simp [load, readFile, h1, h2, h3]
    exact ⟨hl, by simp [mainStartup, hl]⟩
  · intro d1 mdl d2 vtx h1 h2 h3 h4 h5
    have hl : load mdlRead vtxRead vvdRead fromParts fs path =
        Except.error (LoadError.io (withExtension path "vvd")) := by
      simp [load, readFile, h1, h2, h3, h4, h5]
    exact ⟨hl, by simp [mainStartup, hl]⟩
  · intro d1 mdl d2 vtx d3 vvd h1 h2 h3 h4 h5 h6
    simp [load, readFile, h1, h2, h3, h4, h5, h6]

/-- C8 witness: with only `model.mdl` on disk, loading fails with the I/O
error naming the missing `model.dx90.vtx`, and startup yields no window. -/
theorem c8_load_three_files_witness :
    load okUnit okUnit okUnit (fun _ _ _ => ()) fsOne pMdl =
      Except.error (LoadError.io (withExtension pMdl "dx90.vtx")) ∧
    mainStartup okUnit okUnit okUnit (fun _ _ _ => ()) fsOne pMdl =
      Except.error (LoadError.io (withExtension pMdl "dx90.vtx")) := by
  refine (c8_load_three_files Unit Unit Unit Unit okUnit okUnit okUnit
    (fun _ _ _ => ()) fsOne pMdl).2.1 [] () ?_ rfl ?_
  · decide
  · decide
